import Mathlib

/-!
Shallow embedding of the Messenger_Design messaging backend
(`app/models/cassandra_models.py`, table schemas from `scripts/setup_db.py`,
pair-only id derivation from `scripts/generate_test_data.py`).

Modelling conventions:
* Timestamps (`datetime` / `TIMESTAMP`) are `Nat`; `TIMEUUID` message ids are `Nat`.
* Python's builtin `hash` is seed-randomized and unspecified, so every id
  derivation is parameterized by an arbitrary `h : String → Int`; the code's
  `abs(hash(s) % 100000000)` becomes `(h s % 100000000).natAbs` (Python's `%`
  with a positive modulus is nonnegative, matching `Int.emod`).
* Each Cassandra table is a `List` of row records.  `INSERT` upserts by the
  table's full primary key (replace the row with the same key, then append).
  `SELECT` rows of one partition come back in clustering order, modelled by
  sorting the filtered rows with the table's clustering comparison.
  `UPDATE conversations ... WHERE conversation_id = x` is modelled as an
  in-place modification of the rows with that key (the only caller,
  `create_message`, has just ensured the row exists via
  `create_or_get_conversation`, so Cassandra's insert-if-absent upsert
  behaviour is never exercised).
* `page` / `limit` request parameters are `Int`, as in Python, and the
  in-memory slice `result[offset:offset+limit]` is modelled by `pySlice`
  with Python's index-normalization semantics.
-/

/-- A row of the `messages` table:
`PRIMARY KEY ((conversation_id), created_at, message_id)`
with `CLUSTERING ORDER BY (created_at DESC, message_id DESC)`. -/
structure MessageRow where
  conversation_id : Nat
  message_id : Nat
  sender_id : Nat
  receiver_id : Nat
  content : String
  created_at : Nat
deriving DecidableEq

/-- A row of the `conversations` table: `conversation_id INT PRIMARY KEY`. -/
structure ConversationRow where
  conversation_id : Nat
  user1_id : Nat
  user2_id : Nat
  created_at : Nat
  last_message_at : Option Nat
  last_message_content : Option String
deriving DecidableEq

/-- A row of the `conversations_by_user` table:
`PRIMARY KEY ((user_id), last_message_at, conversation_id)`
with `CLUSTERING ORDER BY (last_message_at DESC, conversation_id ASC)`. -/
structure UserConversationRow where
  user_id : Nat
  conversation_id : Nat
  other_user_id : Nat
  last_message_at : Nat
  last_message_content : String
deriving DecidableEq

/-- The whole Cassandra keyspace: the three tables of `setup_db.py`. -/
structure Store where
  messages : List MessageRow
  conversations : List ConversationRow
  conversations_by_user : List UserConversationRow
deriving DecidableEq

def emptyStore : Store := ⟨[], [], []⟩

/-- Message dict as returned to callers: `str(message_id)` plus the raw fields. -/
structure FormattedMessage where
  id : String
  sender_id : Nat
  receiver_id : Nat
  content : String
  created_at : Nat
  conversation_id : Nat
deriving DecidableEq

def formatMessage (m : MessageRow) : FormattedMessage :=
  { id := toString m.message_id
    sender_id := m.sender_id
    receiver_id := m.receiver_id
    content := m.content
    created_at := m.created_at
    conversation_id := m.conversation_id }

/-- The `{total, page, limit, data}` dict shape of the paginated reads. -/
structure Paginated (α : Type) where
  total : Nat
  page : Int
  limit : Int
  data : List α
deriving DecidableEq

/-! ### Clustering order and selection -/

/-- Insertion into a list sorted by `le` (used to model clustering order). -/
def insertSorted (le : α → α → Bool) (x : α) : List α → List α
  | [] => [x]
  | y :: ys => if le x y then x :: y :: ys else y :: insertSorted le x ys

/-- Insertion sort by `le`. -/
def sortBy (le : α → α → Bool) : List α → List α
  | [] => []
  | x :: xs => insertSorted le x (sortBy le xs)

/-- `messages` clustering comparison: `created_at DESC, message_id DESC`. -/
def msgKeyLe (a b : MessageRow) : Bool :=
  decide (b.created_at < a.created_at) ||
    (a.created_at == b.created_at && decide (b.message_id ≤ a.message_id))

/-- `conversations_by_user` clustering comparison:
`last_message_at DESC, conversation_id ASC`. -/
def ucKeyLe (a b : UserConversationRow) : Bool :=
  decide (b.last_message_at < a.last_message_at) ||
    (a.last_message_at == b.last_message_at &&
      decide (a.conversation_id ≤ b.conversation_id))

/-- `SELECT ... FROM messages WHERE conversation_id = cid` in clustering
order (newest first). -/
def conversationMessagesNewestFirst (st : Store) (cid : Nat) : List MessageRow :=
  sortBy msgKeyLe (st.messages.filter (fun m => m.conversation_id == cid))

/-- `SELECT ... FROM conversations_by_user WHERE user_id = u` in clustering
order (most recent first). -/
def userConversationsNewestFirst (st : Store) (u : Nat) : List UserConversationRow :=
  sortBy ucKeyLe (st.conversations_by_user.filter (fun r => r.user_id == u))

/-! ### Writes (INSERT upserts by primary key, UPDATE modifies) -/

def insertMessage (st : Store) (row : MessageRow) : Store :=
  { st with messages :=
      st.messages.filter (fun r =>
        !(r.conversation_id == row.conversation_id &&
          r.created_at == row.created_at && r.message_id == row.message_id)) ++ [row] }

def insertConversation (st : Store) (row : ConversationRow) : Store :=
  { st with conversations :=
      st.conversations.filter (fun r => !(r.conversation_id == row.conversation_id)) ++ [row] }

/-- `UPDATE conversations SET last_message_at = ts, last_message_content = c
WHERE conversation_id = cid`. -/
def updateConversationSummary (st : Store) (cid ts : Nat) (c : String) : Store :=
  { st with conversations := st.conversations.map (fun r =>
      if r.conversation_id == cid then
        { r with last_message_at := some ts, last_message_content := some c }
      else r) }

/-- `MessageModel._update_conversation_for_user`: INSERT into
`conversations_by_user`, an upsert on the key `(user_id, last_message_at,
conversation_id)`. -/
def update_conversation_for_user (st : Store) (user_id other_user_id
    conversation_id last_message_at : Nat) (last_message_content : String) : Store :=
  { st with conversations_by_user :=
      st.conversations_by_user.filter (fun r =>
        !(r.user_id == user_id && r.last_message_at == last_message_at &&
          r.conversation_id == conversation_id)) ++
      [{ user_id := user_id, conversation_id := conversation_id
         other_user_id := other_user_id, last_message_at := last_message_at
         last_message_content := last_message_content }] }

/-! ### Conversation id derivations -/

/-- The string `f"{lower_id}:{higher_id}"` hashed by
`generate_test_data.generate_conversation_id`. -/
def pairHashInput (lower higher : Nat) : String :=
  toString lower ++ ":" ++ toString higher

/-- The string `f"{lower_id}:{higher_id}:{now.timestamp()}"` hashed by the
creation path of `create_or_get_conversation`. -/
def creationHashInput (lower higher now : Nat) : String :=
  toString lower ++ ":" ++ toString higher ++ ":" ++ toString now

/-- `abs(hash(s) % 100000000)` for an arbitrary model `h` of Python `hash`. -/
def hashConversationId (h : String → Int) (s : String) : Nat :=
  (h s % 100000000).natAbs

/-- `generate_test_data.generate_conversation_id`: pair-only derivation. -/
def generate_conversation_id (h : String → Int) (user1_id user2_id : Nat) : Nat :=
  hashConversationId h (pairHashInput (min user1_id user2_id) (max user1_id user2_id))

/-! ### ConversationModel -/

/-- `ConversationModel.get_conversation`: a single SELECT by id; returns the
row (as the result dict, whose fields coincide with `ConversationRow`) or
`none`, and passes the store through untouched. -/
def get_conversation (st : Store) (conversation_id : Nat) :
    Option ConversationRow × Store :=
  match st.conversations.filter (fun r => r.conversation_id == conversation_id) with
  | [] => (none, st)
  | conversation :: _ => (some conversation, st)

/-- `ConversationModel.create_or_get_conversation`.  `now` is the value of
`datetime.now()` observed by this call. -/
def create_or_get_conversation (h : String → Int) (now : Nat) (st : Store)
    (user1_id user2_id : Nat) : ConversationRow × Store :=
  let lower_id := min user1_id user2_id
  let higher_id := max user1_id user2_id
  match st.conversations.filter (fun r =>
      r.user1_id == lower_id && r.user2_id == higher_id) with
  | conversation :: _ => (conversation, st)
  | [] =>
    let conversation_id := hashConversationId h (creationHashInput lower_id higher_id now)
    let row : ConversationRow :=
      { conversation_id := conversation_id, user1_id := lower_id
        user2_id := higher_id, created_at := now
        last_message_at := none, last_message_content := none }
    (row, insertConversation st row)

/-! ### MessageModel -/

/-- `MessageModel.create_message`.  `message_id` models `uuid.uuid1()`,
`created_at` the `datetime.now()` taken at the top of the function, and
`conv_now` the separate `datetime.now()` taken inside
`create_or_get_conversation`. -/
def create_message (h : String → Int) (message_id created_at conv_now : Nat)
    (st : Store) (sender_id receiver_id : Nat) (content : String) :
    MessageRow × Store :=
  let resolved := create_or_get_conversation h conv_now st sender_id receiver_id
  let conversation_id := resolved.1.conversation_id
  let st2 := insertMessage resolved.2
    { conversation_id := conversation_id, message_id := message_id
      sender_id := sender_id, receiver_id := receiver_id
      content := content, created_at := created_at }
  let st3 := updateConversationSummary st2 conversation_id created_at content
  let st4 := update_conversation_for_user st3 sender_id receiver_id
    conversation_id created_at content
  let st5 := update_conversation_for_user st4 receiver_id sender_id
    conversation_id created_at content
  ({ conversation_id := conversation_id, message_id := message_id
     sender_id := sender_id, receiver_id := receiver_id
     content := content, created_at := created_at }, st5)

/-! ### Pagination helpers -/

/-- Normalize a Python slice index against a list length. -/
def pyIndex (len : Nat) (i : Int) : Nat :=
  if i < 0 then ((len : Int) + i).toNat else min i.toNat len

/-- Python's `l[a:b]`. -/
def pySlice (l : List α) (a b : Int) : List α :=
  (l.take (pyIndex l.length b)).drop (pyIndex l.length a)

/-- The LIMIT the code passes to the store: `limit + offset` with
`offset = (page - 1) * limit`. -/
def fetchLimit (page limit : Int) : Int :=
  limit + (page - 1) * limit

/-- `MessageModel.get_conversation_messages`. -/
def get_conversation_messages (st : Store) (conversation_id : Nat)
    (page limit : Int) : Paginated FormattedMessage :=
  let offset := (page - 1) * limit
  let result := (conversationMessagesNewestFirst st conversation_id).take
    (fetchLimit page limit).toNat
  let messages := pySlice result offset (offset + limit)
  let total := (st.messages.filter (fun m => m.conversation_id == conversation_id)).length
  { total := total, page := page, limit := limit, data := messages.map formatMessage }

/-- `MessageModel.get_messages_before_timestamp`. -/
def get_messages_before_timestamp (st : Store) (conversation_id : Nat)
    (before_timestamp : Nat) (page limit : Int) : Paginated FormattedMessage :=
  let offset := (page - 1) * limit
  let result := ((conversationMessagesNewestFirst st conversation_id).filter
    (fun m => decide (m.created_at < before_timestamp))).take (fetchLimit page limit).toNat
  let messages := pySlice result offset (offset + limit)
  let total := ((st.messages.filter (fun m => m.conversation_id == conversation_id)).filter
    (fun m => decide (m.created_at < before_timestamp))).length
  { total := total, page := page, limit := limit, data := messages.map formatMessage }

/-- `ConversationModel.get_user_conversations`: slices the user's index
partition, resolves each listed id via `get_conversation`, silently skipping
ids that do not resolve, and overwrites the resolved record's last-message
fields with the index row's values. -/
def get_user_conversations (st : Store) (user_id : Nat) (page limit : Int) :
    Paginated ConversationRow :=
  let offset := (page - 1) * limit
  let result := (userConversationsNewestFirst st user_id).take (fetchLimit page limit).toNat
  let conversations_raw := pySlice result offset (offset + limit)
  let conversations := conversations_raw.filterMap (fun conv_raw =>
    match (get_conversation st conv_raw.conversation_id).1 with
    | none => none
    | some conv_details => some
      { conv_details with
        last_message_at := some conv_raw.last_message_at
        last_message_content := some conv_raw.last_message_content })
  let total := (st.conversations_by_user.filter (fun r => r.user_id == user_id)).length
  { total := total, page := page, limit := limit, data := conversations }

/-! ### Concrete instances used by counterexamples and witnesses -/

/-- A concrete stand-in for Python's (seed-randomized, unspecified) `hash`. -/
def hLen : String → Int := fun s => (s.length : Int)

/-- Store after `create_message(1, 2, "hi")` at time 10 on an empty keyspace. -/
def stA : Store := (create_message hLen 501 10 10 emptyStore 1 2 "hi").2

/-- Store after a further `create_message(1, 2, "yo")` at time 20. -/
def stB : Store := (create_message hLen 502 20 20 stA 1 2 "yo").2

/-- A store whose user-1 index has one resolvable entry (conversation 5) and
one dangling entry (conversation 9, absent from `conversations`). -/
def stC : Store :=
  { messages := []
    conversations := [{ conversation_id := 5, user1_id := 1, user2_id := 2
                        created_at := 0, last_message_at := some 10
                        last_message_content := some "hi" }]
    conversations_by_user :=
      [{ user_id := 1, conversation_id := 5, other_user_id := 2
         last_message_at := 10, last_message_content := "hi" },
       { user_id := 1, conversation_id := 9, other_user_id := 3
         last_message_at := 20, last_message_content := "zz" }] }

/-- The resolvable conversation record that `get_user_conversations` returns
for `stC` (conversation 5 with the index row's last-message fields). -/
def stCResolvedEntry : ConversationRow :=
  { conversation_id := 5, user1_id := 1, user2_id := 2, created_at := 0
    last_message_at := some 10, last_message_content := some "hi" }

/-! ### Theorems -/

/-- C1: the claim says the id allocated by the creation path of
`create_or_get_conversation` is a pure function of the canonical pair,
independent of wall-clock time, and equals `generate_conversation_id`'s
pair-only id.  The code hashes `f"{lower}:{higher}:{now.timestamp()}"`, so
for the hash model `hLen` the pair (1,2) gets different ids when created at
times 10 and 100, and neither equals the pair-only id; the hashed strings
themselves differ. -/
theorem creation_id_depends_on_wall_clock :
    (create_or_get_conversation hLen 10 emptyStore 1 2).1.conversation_id ≠
      (create_or_get_conversation hLen 100 emptyStore 1 2).1.conversation_id ∧
    (create_or_get_conversation hLen 10 emptyStore 1 2).1.conversation_id ≠
      generate_conversation_id hLen 1 2 ∧
    creationHashInput 1 2 10 ≠ pairHashInput 1 2 := by decide

/-- C2: the claim says `conversations_by_user` holds at most one row per
`(user_id, conversation_id)` and each send replaces the existing row.  The
table's primary key is `(user_id, last_message_at, conversation_id)`, so two
sends in conversation 6 at timestamps 10 and 20 leave two distinct rows for
`(user_id = 1, conversation_id = 6)`. -/
theorem user_index_accumulates_duplicate_rows :
    (create_message hLen 501 10 10 emptyStore 1 2 "hi").1.conversation_id = 6 ∧
    stB.conversations_by_user.filter
        (fun r => r.user_id == 1 && r.conversation_id == 6) =
      [{ user_id := 1, conversation_id := 6, other_user_id := 2
         last_message_at := 10, last_message_content := "hi" },
       { user_id := 1, conversation_id := 6, other_user_id := 2
         last_message_at := 20, last_message_content := "yo" }] := by decide

/-- C4: `create_or_get_conversation` canonicalizes the pair as (min, max)
before lookup and creation, so swapping the two user arguments yields the
same conversation id (for any hash model, time and store state). -/
theorem create_or_get_conversation_commutative (h : String → Int) (now : Nat)
    (st : Store) (a b : Nat) (hne : a ≠ b) :
    (create_or_get_conversation h now st a b).1.conversation_id =
      (create_or_get_conversation h now st b a).1.conversation_id := by
  have h1 : min a b = min b a := Nat.min_comm a b
  have h2 : max a b = max b a := Nat.max_comm a b
  simp only [create_or_get_conversation, h1, h2]

/-- Witness for C4 at the concrete pair (1, 2). -/
theorem create_or_get_conversation_commutative_witness :
    (1 : Nat) ≠ 2 ∧
    (create_or_get_conversation hLen 7 emptyStore 1 2).1.conversation_id =
      (create_or_get_conversation hLen 7 emptyStore 2 1).1.conversation_id :=
  ⟨by decide, create_or_get_conversation_commutative hLen 7 emptyStore 1 2 (by decide)⟩

/-- C8: the claim says `page = 0` or `limit = 0` is rejected with an
InvalidArgument error before any store access.  The code performs no
validation: on the populated store `stB` both reads run to completion,
consult the store (the returned `total` is the store's row count) and return
an ordinary page object, and the LIMIT the code hands to the store is the
degenerate 0. -/
theorem zero_page_args_not_rejected :
    get_conversation_messages stB 6 0 20 =
      { total := 2, page := 0, limit := 20, data := [] } ∧
    get_user_conversations stB 1 1 0 =
      { total := 2, page := 1, limit := 0, data := [] } ∧
    fetchLimit 0 20 = 0 ∧ fetchLimit 1 0 = 0 := by decide

/-- C9: when no row of `conversations` has the requested id,
`get_conversation` returns `None` (no exception path exists in the function)
and leaves the store unchanged. -/
theorem get_conversation_absent_returns_none (st : Store) (cid : Nat)
    (habs : ∀ r ∈ st.conversations, r.conversation_id ≠ cid) :
    get_conversation st cid = (none, st) := by
  unfold get_conversation
  have hnil : st.conversations.filter (fun r => r.conversation_id == cid) = [] := by
    rw [List.filter_eq_nil_iff]
    intro r hr
    simpa using habs r hr
  rw [hnil]

/-- Witness for C9: conversation 42 is absent from the empty store. -/
theorem get_conversation_absent_returns_none_witness :
    (∀ r ∈ emptyStore.conversations, r.conversation_id ≠ 42) ∧
    get_conversation emptyStore 42 = (none, emptyStore) :=
  ⟨by decide, get_conversation_absent_returns_none emptyStore 42 (by decide)⟩

/-! ### Sorting membership lemmas -/

theorem mem_of_mem_insertSorted {le : α → α → Bool} {x y : α} {l : List α}
    (h : y ∈ insertSorted le x l) : y = x ∨ y ∈ l := by
  induction l with
  | nil => simpa [insertSorted] using h
  | cons z zs ih =>
    rw [insertSorted] at h
    by_cases hc : le x z
    · rw [if_pos hc] at h
      rcases List.mem_cons.mp h with h1 | h1
      · exact Or.inl h1
      · exact Or.inr h1
    · rw [if_neg hc] at h
      rcases List.mem_cons.mp h with h1 | h1
      · exact Or.inr (by simp [h1])
      · rcases ih h1 with h2 | h2
        · exact Or.inl h2
        · exact Or.inr (by simp [h2])

theorem mem_of_mem_sortBy {le : α → α → Bool} {y : α} {l : List α}
    (h : y ∈ sortBy le l) : y ∈ l := by
  induction l with
  | nil => simpa [sortBy] using h
  | cons z zs ih =>
    rw [sortBy] at h
    rcases mem_of_mem_insertSorted h with h1 | h1
    · simp [h1]
    · simp [ih h1]

theorem mem_of_mem_pySlice {l : List α} {a b : Int} {y : α}
    (h : y ∈ pySlice l a b) : y ∈ l := by
  unfold pySlice at h
  exact List.mem_of_mem_take (List.mem_of_mem_drop h)

/-- C7: every message returned by `get_messages_before_timestamp` has
`created_at` strictly below the requested timestamp, because the store
query filters on `created_at < before_timestamp` and slicing only ever
removes elements. -/
theorem get_messages_before_timestamp_strict (st : Store) (cid t : Nat)
    (page limit : Int) (m : FormattedMessage)
    (hm : m ∈ (get_messages_before_timestamp st cid t page limit).data) :
    m.created_at < t := by
  unfold get_messages_before_timestamp at hm
  simp only at hm
  rcases List.mem_map.mp hm with ⟨raw, hraw, rfl⟩
  have h1 : raw ∈ ((conversationMessagesNewestFirst st cid).filter
      (fun m => decide (m.created_at < t))).take (fetchLimit page limit).toNat :=
    mem_of_mem_pySlice hraw
  have h2 := List.mem_of_mem_take h1
  have h3 := (List.mem_filter.mp h2).2
  simpa [formatMessage] using of_decide_eq_true h3

/-- Witness for C7: on the two-message store `stB`, asking for messages of
conversation 6 before time 15 returns the time-10 message, whose timestamp
is below 15. -/
theorem get_messages_before_timestamp_strict_witness :
    formatMessage { conversation_id := 6, message_id := 501, sender_id := 1
                    receiver_id := 2, content := "hi", created_at := 10 } ∈
      (get_messages_before_timestamp stB 6 15 1 20).data ∧
    (formatMessage { conversation_id := 6, message_id := 501, sender_id := 1
                     receiver_id := 2, content := "hi", created_at := 10 }).created_at < 15 :=
  ⟨by decide, get_messages_before_timestamp_strict stB 6 15 1 20 _ (by decide)⟩

/-- The row inserted by the creation branch of `create_or_get_conversation`. -/
def freshConversationRow (h : String → Int) (now a b : Nat) : ConversationRow :=
  { conversation_id :=
      hashConversationId h (creationHashInput (min a b) (max a b) now)
    user1_id := min a b, user2_id := max a b, created_at := now
    last_message_at := none, last_message_content := none }

theorem create_or_get_conversation_creates (h : String → Int) (now : Nat)
    (st : Store) (a b : Nat)
    (habs : st.conversations.filter (fun r =>
      r.user1_id == min a b && r.user2_id == max a b) = []) :
    create_or_get_conversation h now st a b =
      (freshConversationRow h now a b,
       insertConversation st (freshConversationRow h now a b)) := by
  simp only [create_or_get_conversation, habs, freshConversationRow]

theorem pair_filter_after_insert (st : Store) (a b : Nat)
    (row : ConversationRow)
    (hu1 : row.user1_id = min a b) (hu2 : row.user2_id = max a b)
    (habs : st.conversations.filter (fun r =>
      r.user1_id == min a b && r.user2_id == max a b) = []) :
    (insertConversation st row).conversations.filter (fun r =>
      r.user1_id == min a b && r.user2_id == max a b) = [row] := by
  unfold insertConversation
  simp only [List.filter_append]
  have h0 : (st.conversations.filter (fun r =>
      !(r.conversation_id == row.conversation_id))).filter (fun r =>
        r.user1_id == min a b && r.user2_id == max a b) = [] := by
    rw [List.filter_eq_nil_iff]
    intro x hx
    exact List.filter_eq_nil_iff.mp habs x (List.mem_of_mem_filter hx)
  rw [h0]
  simp [hu1, hu2]

/-- C5: two sequential `create_or_get_conversation` calls for the same pair
(with arbitrary, possibly different, wall-clock times and hash behaviour on
the two calls) never produce two distinct conversation rows: the second call
returns the id the first call created, writes nothing, and the conversations
table ends up with exactly one row for the canonical pair. -/
theorem create_or_get_conversation_idempotent (h1 h2 : String → Int)
    (t1 t2 : Nat) (st : Store) (a b : Nat)
    (habs : st.conversations.filter (fun r =>
      r.user1_id == min a b && r.user2_id == max a b) = []) :
    (create_or_get_conversation h2 t2
        (create_or_get_conversation h1 t1 st a b).2 a b).1.conversation_id =
      (create_or_get_conversation h1 t1 st a b).1.conversation_id ∧
    (create_or_get_conversation h2 t2
        (create_or_get_conversation h1 t1 st a b).2 a b).2 =
      (create_or_get_conversation h1 t1 st a b).2 ∧
    ((create_or_get_conversation h1 t1 st a b).2.conversations.filter (fun r =>
      r.user1_id == min a b && r.user2_id == max a b)).length = 1 := by
  have hfirst := create_or_get_conversation_creates h1 t1 st a b habs
  have hpf := pair_filter_after_insert st a b (freshConversationRow h1 t1 a b)
    rfl rfl habs
  have hsecond : create_or_get_conversation h2 t2
      (insertConversation st (freshConversationRow h1 t1 a b)) a b =
      (freshConversationRow h1 t1 a b,
       insertConversation st (freshConversationRow h1 t1 a b)) := by
    simp only [create_or_get_conversation, hpf]
  rw [hfirst]
  exact ⟨by rw [hsecond], by rw [hsecond], by rw [hpf]; rfl⟩

/-- Witness for C5 on the empty store with the pair (1, 2) and two different
times and hash models on the two calls. -/
theorem create_or_get_conversation_idempotent_witness :
    emptyStore.conversations.filter (fun r =>
      r.user1_id == min 1 2 && r.user2_id == max 1 2) = [] ∧
    ((create_or_get_conversation (fun _ => 0) 9
        (create_or_get_conversation hLen 5 emptyStore 1 2).2 1 2).1.conversation_id =
      (create_or_get_conversation hLen 5 emptyStore 1 2).1.conversation_id ∧
    (create_or_get_conversation (fun _ => 0) 9
        (create_or_get_conversation hLen 5 emptyStore 1 2).2 1 2).2 =
      (create_or_get_conversation hLen 5 emptyStore 1 2).2 ∧
    ((create_or_get_conversation hLen 5 emptyStore 1 2).2.conversations.filter (fun r =>
      r.user1_id == min 1 2 && r.user2_id == max 1 2)).length = 1) :=
  ⟨by decide,
   create_or_get_conversation_idempotent hLen (fun _ => 0) 5 9 emptyStore 1 2 (by decide)⟩

theorem get_conversation_some_id {st : Store} {x : Nat} {d : ConversationRow}
    (h : (get_conversation st x).1 = some d) : d.conversation_id = x := by
  unfold get_conversation at h
  cases hf : st.conversations.filter (fun r => r.conversation_id == x) with
  | nil => rw [hf] at h; simp at h
  | cons c cs =>
    rw [hf] at h
    simp at h
    subst h
    have hc : c ∈ st.conversations.filter (fun r => r.conversation_id == x) := by
      rw [hf]; exact List.mem_cons_self c cs
    simpa using (List.mem_filter.mp hc).2

/-- C10: `get_user_conversations` silently drops index entries whose
conversation id has no row in `conversations` (each returned record resolves
via `get_conversation`), while the reported `total` still counts every row
of the user's index partition. -/
theorem get_user_conversations_skips_unresolvable (st : Store) (u : Nat)
    (page limit : Int) :
    (∀ c ∈ (get_user_conversations st u page limit).data,
      ((get_conversation st c.conversation_id).1).isSome = true) ∧
    (get_user_conversations st u page limit).total =
      (st.conversations_by_user.filter (fun r => r.user_id == u)).length := by
  constructor
  · intro c hc
    unfold get_user_conversations at hc
    simp only at hc
    rcases List.mem_filterMap.mp hc with ⟨raw, hraw, hres⟩
    cases hg : (get_conversation st raw.conversation_id).1 with
    | none => rw [hg] at hres; simp at hres
    | some d =>
      rw [hg] at hres
      simp only [Option.some.injEq] at hres
      have hid : d.conversation_id = raw.conversation_id := get_conversation_some_id hg
      subst hres
      simpa [hid] using congrArg Option.isSome hg
  · rfl

/-- Witness for C10 on `stC`: the resolvable conversation 5 is returned (and
resolves), while `total` counts both index rows of user 1, including the
dangling conversation 9. -/
theorem get_user_conversations_skips_unresolvable_witness :
    stCResolvedEntry ∈ (get_user_conversations stC 1 1 20).data ∧
    ((get_conversation stC stCResolvedEntry.conversation_id).1).isSome = true ∧
    (get_user_conversations stC 1 1 20).total =
      (stC.conversations_by_user.filter (fun r => r.user_id == 1)).length :=
  ⟨by decide,
   (get_user_conversations_skips_unresolvable stC 1 1 20).1 _ (by decide),
   (get_user_conversations_skips_unresolvable stC 1 1 20).2⟩

/-! ### Slice arithmetic -/

theorem take_min_length (l : List α) (n : Nat) :
    l.take (min n l.length) = l.take n := by
  rcases Nat.le_total n l.length with h | h
  · rw [Nat.min_eq_left h]
  · rw [Nat.min_eq_right h, List.take_length, List.take_of_length_le h]

theorem drop_min_of_length_le (l : List α) (n m : Nat) (h : l.length ≤ m) :
    l.drop (min n m) = l.drop n := by
  rcases Nat.le_total n m with h1 | h1
  · rw [Nat.min_eq_left h1]
  · rw [Nat.min_eq_right h1, List.drop_eq_nil_of_le h,
      List.drop_eq_nil_of_le (le_trans h h1)]

/-- With nonnegative bounds, a Python slice is plain take-then-drop. -/
theorem pySlice_nonneg (l : List α) (a b : Int) (ha : 0 ≤ a) (hb : 0 ≤ b) :
    pySlice l a b = (l.take b.toNat).drop a.toNat := by
  have h1 : pyIndex l.length b = min b.toNat l.length := by
    unfold pyIndex; rw [if_neg (not_lt.mpr hb)]
  have h2 : pyIndex l.length a = min a.toNat l.length := by
    unfold pyIndex; rw [if_neg (not_lt.mpr ha)]
  unfold pySlice
  rw [h1, h2, take_min_length]
  exact drop_min_of_length_le _ _ _
    (by rw [List.length_take]; exact Nat.min_le_right _ _)

/-- C6: for `page ≥ 1` (and a nonnegative `limit`),
`get_conversation_messages` computes `offset = (page-1)*limit`, fetches the
newest-first prefix of `offset + limit` messages of the conversation, returns
exactly the sub-list of that prefix from index `offset` to `offset + limit`,
echoes `page` and `limit`, and reports `total` as the count of all messages
of the conversation. -/
theorem get_conversation_messages_paging (st : Store) (cid : Nat)
    (page limit : Int) (hp : 1 ≤ page) (hl : 0 ≤ limit) :
    (get_conversation_messages st cid page limit).data =
      (((conversationMessagesNewestFirst st cid).take
          (((page - 1) * limit).toNat + limit.toNat)).drop
        (((page - 1) * limit).toNat)).map formatMessage ∧
    (get_conversation_messages st cid page limit).page = page ∧
    (get_conversation_messages st cid page limit).limit = limit ∧
    (get_conversation_messages st cid page limit).total =
      (st.messages.filter (fun m => m.conversation_id == cid)).length := by
  have hoff : 0 ≤ (page - 1) * limit := mul_nonneg (by omega) hl
  refine ⟨?_, rfl, rfl, rfl⟩
  show (pySlice ((conversationMessagesNewestFirst st cid).take
      (fetchLimit page limit).toNat) ((page - 1) * limit)
      ((page - 1) * limit + limit)).map formatMessage = _
  rw [pySlice_nonneg _ _ _ hoff (add_nonneg hoff hl)]
  have e1 : ((page - 1) * limit + limit).toNat =
      ((page - 1) * limit).toNat + limit.toNat := Int.toNat_add hoff hl
  have e2 : (fetchLimit page limit).toNat =
      limit.toNat + ((page - 1) * limit).toNat := by
    unfold fetchLimit; exact Int.toNat_add hl hoff
  rw [e1, e2, List.take_take,
    Nat.add_comm limit.toNat (((page - 1) * limit).toNat), Nat.min_self]

/-- Witness for C6 on `stB` with page 2, limit 1. -/
theorem get_conversation_messages_paging_witness :
    (1 : Int) ≤ 2 ∧ (0 : Int) ≤ 1 ∧
    ((get_conversation_messages stB 6 2 1).data =
      (((conversationMessagesNewestFirst stB 6).take
          ((((2 : Int) - 1) * 1).toNat + (1 : Int).toNat)).drop
        ((((2 : Int) - 1) * 1).toNat)).map formatMessage ∧
    (get_conversation_messages stB 6 2 1).page = 2 ∧
    (get_conversation_messages stB 6 2 1).limit = 1 ∧
    (get_conversation_messages stB 6 2 1).total =
      (stB.messages.filter (fun m => m.conversation_id == 6)).length) :=
  ⟨by decide, by decide,
   get_conversation_messages_paging stB 6 2 1 (by decide) (by decide)⟩

/-! ### Helper lemmas for the fan-out theorem -/

theorem create_or_get_conversation_found (h : String → Int) (now : Nat)
    (st : Store) (a b : Nat) (c : ConversationRow) (cs : List ConversationRow)
    (hf : st.conversations.filter (fun r =>
      r.user1_id == min a b && r.user2_id == max a b) = c :: cs) :
    create_or_get_conversation h now st a b = (c, st) := by
  simp only [create_or_get_conversation, hf]

theorem create_or_get_conversation_mem (h : String → Int) (now : Nat)
    (st : Store) (a b : Nat) :
    (create_or_get_conversation h now st a b).1 ∈
      (create_or_get_conversation h now st a b).2.conversations := by
  cases hf : st.conversations.filter (fun r =>
      r.user1_id == min a b && r.user2_id == max a b) with
  | nil =>
    rw [create_or_get_conversation_creates h now st a b hf]
    unfold insertConversation
    simp
  | cons c cs =>
    rw [create_or_get_conversation_found h now st a b c cs hf]
    exact List.mem_of_mem_filter (by rw [hf]; exact List.mem_cons_self c cs)

theorem create_or_get_conversation_pairwise (h : String → Int) (now : Nat)
    (st : Store) (a b : Nat)
    (wf : st.conversations.Pairwise
      (fun p q => p.conversation_id ≠ q.conversation_id)) :
    (create_or_get_conversation h now st a b).2.conversations.Pairwise
      (fun p q => p.conversation_id ≠ q.conversation_id) := by
  cases hf : st.conversations.filter (fun r =>
      r.user1_id == min a b && r.user2_id == max a b) with
  | nil =>
    rw [create_or_get_conversation_creates h now st a b hf]
    unfold insertConversation
    rw [List.pairwise_append]
    refine ⟨wf.sublist (List.filter_sublist _), List.pairwise_singleton _ _, ?_⟩
    intro x hx y hy
    rw [List.mem_singleton] at hy
    subst hy
    have hne := (List.mem_filter.mp hx).2
    simpa using hne
  | cons c cs =>
    rw [create_or_get_conversation_found h now st a b c cs hf]
    exact wf

theorem filter_id_eq_singleton {l : List ConversationRow} {x : ConversationRow}
    (hp : l.Pairwise (fun p q => p.conversation_id ≠ q.conversation_id))
    (hx : x ∈ l) :
    l.filter (fun r => r.conversation_id == x.conversation_id) = [x] := by
  induction l with
  | nil => cases hx
  | cons a as ih =>
    rcases List.pairwise_cons.mp hp with ⟨ha, hp2⟩
    rcases List.mem_cons.mp hx with rfl | hx2
    · have hnil : as.filter (fun r => r.conversation_id == x.conversation_id) = [] := by
        rw [List.filter_eq_nil_iff]
        intro q hq hcon
        exact ha q hq (Eq.symm (by simpa using hcon))
      simp [List.filter_cons, hnil]
    · have hne : (a.conversation_id == x.conversation_id) = false := by
        have := ha x hx2
        simp [this]
      simp [List.filter_cons, hne, ih hp2 hx2]

theorem filter_id_updateSummary (l : List ConversationRow) (cid ts : Nat) (c : String) :
    (l.map (fun r => if r.conversation_id == cid then
        { r with last_message_at := some ts, last_message_content := some c }
      else r)).filter (fun r => r.conversation_id == cid) =
    (l.filter (fun r => r.conversation_id == cid)).map (fun r =>
      if r.conversation_id == cid then
        { r with last_message_at := some ts, last_message_content := some c }
      else r) := by
  induction l with
  | nil => rfl
  | cons a as ih =>
    by_cases hc : a.conversation_id = cid
    · simp [List.filter_cons, hc]
      simpa using ih
    · simp [List.filter_cons, hc]
      simpa using ih

theorem get_conversation_fst_eq (st st2 : Store) (cid : Nat)
    (hc : st.conversations = st2.conversations) :
    (get_conversation st cid).1 = (get_conversation st2 cid).1 := by
  unfold get_conversation
  rw [hc]
  cases st2.conversations.filter (fun r => r.conversation_id == cid) <;> rfl

theorem get_conversation_summary_updated (st1 : Store) (x : ConversationRow)
    (ts : Nat) (c : String)
    (hsingle : st1.conversations.filter
      (fun q => q.conversation_id == x.conversation_id) = [x]) :
    (get_conversation (updateConversationSummary st1 x.conversation_id ts c)
        x.conversation_id).1 =
      some { x with last_message_at := some ts, last_message_content := some c } := by
  have hc : (updateConversationSummary st1 x.conversation_id ts c).conversations =
      st1.conversations.map (fun q =>
        if q.conversation_id == x.conversation_id then
          { q with last_message_at := some ts, last_message_content := some c }
        else q) := rfl
  unfold get_conversation
  rw [hc, filter_id_updateSummary, hsingle]
  simp

theorem fanout_conversation_content (st1 : Store) (x : ConversationRow)
    (ts : Nat) (c : String) (a1 b1 a2 b2 : Nat)
    (hsingle : st1.conversations.filter
      (fun q => q.conversation_id == x.conversation_id) = [x]) :
    ((get_conversation
        (update_conversation_for_user
          (update_conversation_for_user
            (updateConversationSummary st1 x.conversation_id ts c)
            a1 b1 x.conversation_id ts c)
          a2 b2 x.conversation_id ts c)
        x.conversation_id).1).map (fun q => q.last_message_content) =
      some (some c) := by
  rw [get_conversation_fst_eq
      (update_conversation_for_user
        (update_conversation_for_user
          (updateConversationSummary st1 x.conversation_id ts c)
          a1 b1 x.conversation_id ts c)
        a2 b2 x.conversation_id ts c)
      (updateConversationSummary st1 x.conversation_id ts c)
      x.conversation_id rfl]
  rw [get_conversation_summary_updated st1 x ts c hsingle]
  rfl

theorem fanout_receiver_row (st3 : Store) (a1 b1 a2 b2 k ts : Nat) (c : String) :
    ∃ row ∈ (update_conversation_for_user
        (update_conversation_for_user st3 a1 b1 k ts c) a2 b2 k ts c).conversations_by_user,
      row.user_id = a2 ∧ row.conversation_id = k ∧
      row.last_message_at = ts ∧ row.last_message_content = c := by
  refine ⟨{ user_id := a2, conversation_id := k, other_user_id := b2,
            last_message_at := ts, last_message_content := c }, ?_, rfl, rfl, rfl, rfl⟩
  simp only [update_conversation_for_user]
  simp

theorem fanout_sender_row (st3 : Store) (s r k ts : Nat) (c : String) :
    ∃ row ∈ (update_conversation_for_user
        (update_conversation_for_user st3 s r k ts c) r s k ts c).conversations_by_user,
      row.user_id = s ∧ row.conversation_id = k ∧
      row.last_message_at = ts ∧ row.last_message_content = c := by
  by_cases hsr : s = r
  · subst hsr
    exact fanout_receiver_row st3 s s s s k ts c
  · refine ⟨{ user_id := s, conversation_id := k, other_user_id := r,
              last_message_at := ts, last_message_content := c }, ?_, rfl, rfl, rfl, rfl⟩
    simp only [update_conversation_for_user]
    apply List.mem_append_left
    apply List.mem_filter.mpr
    constructor
    · apply List.mem_append_right
      simp
    · simp [hsr]

/-- C3: after `create_message(s, r, "hello")` succeeds on a store whose
`conversations` table has pairwise-distinct ids (the primary-key invariant),
`get_conversation` on the returned conversation id reports
`last_message_content = "hello"`, and for each participant the
`conversations_by_user` table contains that participant's freshly written
row for the conversation carrying the content "hello" and the message's
timestamp. -/
theorem create_message_updates_all_summaries (h : String → Int)
    (mid ts tsc : Nat) (st : Store) (s r : Nat)
    (wf : st.conversations.Pairwise
      (fun p q => p.conversation_id ≠ q.conversation_id))
    (msg : MessageRow) (stFin : Store)
    (hrun : create_message h mid ts tsc st s r "hello" = (msg, stFin)) :
    ((get_conversation stFin msg.conversation_id).1.map
        (fun q => q.last_message_content) = some (some "hello")) ∧
    (∃ row ∈ stFin.conversations_by_user, row.user_id = s ∧
      row.conversation_id = msg.conversation_id ∧
      row.last_message_at = ts ∧ row.last_message_content = "hello") ∧
    (∃ row ∈ stFin.conversations_by_user, row.user_id = r ∧
      row.conversation_id = msg.conversation_id ∧
      row.last_message_at = ts ∧ row.last_message_content = "hello") := by
  simp only [create_message] at hrun
  injection hrun with h1 h2
  subst h1
  subst h2
  have hmem := create_or_get_conversation_mem h tsc st s r
  have hpw := create_or_get_conversation_pairwise h tsc st s r wf
  have hsingle := filter_id_eq_singleton hpw hmem
  refine ⟨?_, ?_, ?_⟩
  · exact fanout_conversation_content _ _ _ _ _ _ _ _ hsingle
  · exact fanout_sender_row _ _ _ _ _ _
  · exact fanout_receiver_row _ _ _ _ _ _ _ _

/-- Witness for C3: sending "hello" from user 1 to user 2 on the empty store. -/
theorem create_message_updates_all_summaries_witness :
    emptyStore.conversations.Pairwise
      (fun p q => p.conversation_id ≠ q.conversation_id) ∧
    (((get_conversation (create_message hLen 77 10 10 emptyStore 1 2 "hello").2
        (create_message hLen 77 10 10 emptyStore 1 2 "hello").1.conversation_id).1.map
        (fun q => q.last_message_content) = some (some "hello")) ∧
    (∃ row ∈ (create_message hLen 77 10 10 emptyStore 1 2 "hello").2.conversations_by_user,
      row.user_id = 1 ∧
      row.conversation_id =
        (create_message hLen 77 10 10 emptyStore 1 2 "hello").1.conversation_id ∧
      row.last_message_at = 10 ∧ row.last_message_content = "hello") ∧
    (∃ row ∈ (create_message hLen 77 10 10 emptyStore 1 2 "hello").2.conversations_by_user,
      row.user_id = 2 ∧
      row.conversation_id =
        (create_message hLen 77 10 10 emptyStore 1 2 "hello").1.conversation_id ∧
      row.last_message_at = 10 ∧ row.last_message_content = "hello")) :=
  ⟨List.Pairwise.nil,
   create_message_updates_all_summaries hLen 77 10 10 emptyStore 1 2
     List.Pairwise.nil
     (create_message hLen 77 10 10 emptyStore 1 2 "hello").1
     (create_message hLen 77 10 10 emptyStore 1 2 "hello").2 rfl⟩
